import Mathlib

/-!
Shallow embedding of the `worktree` backend (Django application) in Lean 4,
covering the user / email-verification data model
(backend/apps/users/models.py), the registration serializer
(backend/apps/users/serializers.py), the authentication endpoint handlers
(backend/apps/users/views.py) and the company endpoint
(backend/apps/companies/views.py).

Modelling conventions:
- time is a natural number of seconds; `timezone.now()` becomes an explicit
  `now : Nat` argument;
- `random.choices(string.digits, k=6)` becomes an explicit argument
  `choices : Fin 6 → Fin 10` selecting indices into the digit alphabet;
- the database is an explicit `DB` value threaded through the handlers;
- nullable model fields become `Option`; Python falsiness of a CharField
  (both `None` and the empty string are falsy) is modelled explicitly;
- outgoing mail is returned as a list of `EmailMessage` values;
- framework primitives that live outside this repository (base64 uid
  decoding, the signed password-reset token check, the password hash) are
  abstracted as function parameters.
-/

namespace Worktree

/-- Model of Python `str.lower` on a single character (ASCII range, which is
all the repository ever stores). -/
def pyLowerChar (c : Char) : Char :=
  if 65 ≤ c.toNat ∧ c.toNat ≤ 90 then Char.ofNat (c.toNat + 32) else c

/-- Model of Python `str.lower`, applied characterwise. -/
def pyLower (s : String) : String :=
  String.mk (s.data.map pyLowerChar)

/-- `User.VERIFICATION_CODE_EXPIRY_MINUTES` from models.py. -/
def VERIFICATION_CODE_EXPIRY_MINUTES : Nat := 15

/-- The `User` model row (backend/apps/users/models.py). The password hash is
modelled as the plain password string, since hashing is delegated to the
framework and never inspected by this repository. -/
structure User where
  id : Nat
  email : String
  name : String
  password : String
  is_active : Bool
  is_staff : Bool
  is_email_verified : Bool
  email_verification_code : Option String
  email_verification_code_created_at : Option Nat
  is_onboarded : Bool
  deriving Repr, DecidableEq

/-- A DRF auth token row (`rest_framework.authtoken.models.Token`). -/
structure Token where
  user_id : Nat
  key : String
  deriving Repr, DecidableEq

/-- The `Company` model row (backend/apps/companies/models.py); `admin` and
`members` store user ids. -/
structure Company where
  id : Nat
  name : String
  logo : Option String
  admin : Nat
  members : List Nat
  deriving Repr, DecidableEq

/-- A dispatched transactional email (`send_email` call), keeping the fields
the claims talk about: recipient, subject, template, and the verification
code passed in the context (when any). -/
structure EmailMessage where
  «to» : String
  subject : String
  template_name : String
  context_verification_code : Option String
  deriving Repr, DecidableEq

/-- Python `string.digits`. -/
def string_digits : String := "0123456789"

/-- The character of `string.digits` selected by one call of
`random.choices`. -/
def digitChar (d : Fin 10) : Char :=
  string_digits.data.getD d.val ' '

/-- The 6-character code built by
`"".join(random.choices(string.digits, k=6))`, with the random draws made
explicit. -/
def codeFromChoices (choices : Fin 6 → Fin 10) : String :=
  String.mk ((List.finRange 6).map (fun i => digitChar (choices i)))

/-- `User.generate_verification_code` (models.py): store a fresh 6-digit code
with the current timestamp and return the code together with the updated
row. -/
def User.generate_verification_code (u : User) (choices : Fin 6 → Fin 10) (now : Nat) :
    String × User :=
  let code := codeFromChoices choices
  (code,
   { u with
     email_verification_code := some code
     email_verification_code_created_at := some now })

/-- `User.is_verification_code_valid` (models.py). The first Python guard
tests falsiness of the stored code and timestamp, so a stored empty string
counts the same as no stored code. -/
def User.is_verification_code_valid (u : User) (now : Nat) (code : String) : Bool :=
  match u.email_verification_code, u.email_verification_code_created_at with
  | none, _ => false
  | some _, none => false
  | some c, some createdAt =>
    if c.isEmpty then false
    else if c ≠ code then false
    else decide (now ≤ createdAt + VERIFICATION_CODE_EXPIRY_MINUTES * 60)

/-- `User.verify_email` (models.py): mark verified, clear code and
timestamp. -/
def User.verify_email (u : User) : User :=
  { u with
    is_email_verified := true
    email_verification_code := none
    email_verification_code_created_at := none }

/-- The application state: user, company and token tables, plus the
auto-increment counters of the relational store. -/
structure DB where
  users : List User
  companies : List Company
  tokens : List Token
  nextUserId : Nat
  nextCompanyId : Nat
  deriving Repr, DecidableEq

/-- An HTTP response, keeping status and the body fields the claims talk
about. Absent body keys are `none`. -/
structure Response where
  status : Nat
  detail : Option String
  key : Option String
  email_not_verified : Option Bool
  email : Option String
  deriving Repr, DecidableEq

/-- A response carrying only a detail message. -/
def detailResponse (status : Nat) (d : String) : Response :=
  { status := status, detail := some d, key := none, email_not_verified := none,
    email := none }

/-- `User.objects.get(email=email)`, with `DoesNotExist` as `none`. -/
def DB.findUserByEmail (db : DB) (email : String) : Option User :=
  db.users.find? (fun u => u.email == email)

/-- `User.objects.get(pk=user_id)`, with `DoesNotExist` as `none`. -/
def DB.findUserById (db : DB) (uid : Nat) : Option User :=
  db.users.find? (fun u => u.id == uid)

/-- Persist an updated user row (`user.save()`): replace the row with the
same primary key. -/
def DB.updateUser (db : DB) (u : User) : DB :=
  { db with users := db.users.map (fun v => if v.id == u.id then u else v) }

/-- `Token.objects.get(user=...)`, with `DoesNotExist` as `none`. -/
def DB.findToken (db : DB) (uid : Nat) : Option Token :=
  db.tokens.find? (fun t => t.user_id == uid)

/-- `Token.objects.get_or_create(user=user)`; the key a freshly created token
would get is the explicit `freshKey` argument. -/
def DB.getOrCreateToken (db : DB) (uid : Nat) (freshKey : String) : Token × DB :=
  match db.findToken uid with
  | some t => (t, db)
  | none =>
    let t : Token := { user_id := uid, key := freshKey }
    (t, { db with tokens := db.tokens ++ [t] })

/-- Django ModelBackend authentication as exercised by the dj-rest-auth login
serializer: exact lookup by the username field (email), password check,
`user_can_authenticate` (is_active). -/
def authenticate (db : DB) (email password : String) : Option User :=
  match db.findUserByEmail email with
  | none => none
  | some u => if u.password == password && u.is_active then some u else none

/-- `LoginView.post` (views.py): serializer failure is delegated to the
parent view, which answers 400; a valid but unverified user gets 403 with
the machine-readable flag; otherwise the parent issues (or reuses) the auth
token and answers 200. -/
def LoginView.post (db : DB) (email password freshKey : String) : Response × DB :=
  match authenticate db email password with
  | none =>
    ({ status := 400, detail := some "Unable to log in with provided credentials.",
       key := none, email_not_verified := none, email := none }, db)
  | some u =>
    if !u.is_email_verified then
      ({ status := 403, detail := some "Please verify your email before logging in.",
         key := none, email_not_verified := some true, email := some u.email }, db)
    else
      let (tok, db2) := db.getOrCreateToken u.id freshKey
      ({ status := 200, detail := none, key := some tok.key,
         email_not_verified := none, email := none }, db2)

/-- `VerifyEmailView.post` (views.py). The serializer enforces a length-6
code and lowercases the email; the handler then looks the user up, rejects
already-verified users and invalid codes with 400, and otherwise verifies
the user and returns the auth token key. -/
def VerifyEmailView.post (db : DB) (now : Nat) (freshKey : String) (email code : String) :
    Response × DB :=
  if code.length ≠ 6 then
    (detailResponse 400 "Ensure this field has 6 characters.", db)
  else
    let email := pyLower email
    match db.findUserByEmail email with
    | none => (detailResponse 400 "Invalid email or verification code.", db)
    | some u =>
      if u.is_email_verified then
        (detailResponse 400 "Email is already verified.", db)
      else if !u.is_verification_code_valid now code then
        (detailResponse 400 "Invalid or expired verification code.", db)
      else
        let db2 := db.updateUser u.verify_email
        let (tok, db3) := db2.getOrCreateToken u.id freshKey
        ({ status := 200, detail := some "Email verified successfully.",
           key := some tok.key, email_not_verified := none, email := none }, db3)

/-- `ResendVerificationView.post` (views.py): generic 200 for unknown
emails, 400 when already verified, otherwise regenerate the code and send
the verification email. -/
def ResendVerificationView.post (db : DB) (now : Nat) (choices : Fin 6 → Fin 10)
    (email : String) : Response × DB × List EmailMessage :=
  let email := pyLower email
  match db.findUserByEmail email with
  | none =>
    (detailResponse 200 "If an account exists with this email, a verification code has been sent.",
     db, [])
  | some u =>
    if u.is_email_verified then
      (detailResponse 400 "Email is already verified.", db, [])
    else
      let (code, u2) := u.generate_verification_code choices now
      (detailResponse 200 "Verification code sent.", db.updateUser u2,
       [{ «to» := u.email, subject := "Verify your email address",
          template_name := "auth/verify_email", context_verification_code := some code }])

/-- `PasswordResetView.post` (views.py): generic 200 in every case; when the
user exists a reset email is sent (the signed token is stateless, so the
database is unchanged either way). -/
def PasswordResetView.post (db : DB) (email : String) :
    Response × DB × List EmailMessage :=
  let email := pyLower email
  match db.findUserByEmail email with
  | none =>
    (detailResponse 200 "If an account exists with this email, a password reset link has been sent.",
     db, [])
  | some u =>
    (detailResponse 200 "If an account exists with this email, a password reset link has been sent.",
     db,
     [{ «to» := u.email, subject := "Reset your password",
        template_name := "auth/password_reset", context_verification_code := none }])

/-- `PasswordResetConfirmView.post` (views.py). `decodeUid` abstracts
`force_str(urlsafe_base64_decode(uid))` followed by primary-key coercion
(failures collapse to `none`); `checkToken` abstracts
`default_token_generator.check_token`. The serializer enforces the 8
character minimum on `new_password` first. -/
def PasswordResetConfirmView.post (decodeUid : String → Option Nat)
    (checkToken : User → String → Bool) (db : DB)
    (uid token new_password : String) : Response × DB :=
  if new_password.length < 8 then
    (detailResponse 400 "Ensure this field has at least 8 characters.", db)
  else
    match decodeUid uid with
    | none => (detailResponse 400 "Invalid or expired password reset link.", db)
    | some userId =>
      match db.findUserById userId with
      | none => (detailResponse 400 "Invalid or expired password reset link.", db)
      | some u =>
        if !checkToken u token then
          (detailResponse 400 "Invalid or expired password reset link.", db)
        else
          (detailResponse 200 "Password has been reset successfully.",
           db.updateUser { u with password := new_password })

/-- Outcome of `CustomRegisterSerializer` validation plus save. -/
inductive RegisterResult where
  | error (msg : String)
  | ok (db : DB) (userId : Nat) (sent : List EmailMessage)
  deriving Repr, DecidableEq

/-- Registration (`CustomRegisterSerializer` in serializers.py, driven by the
dj-rest-auth registration endpoint): blank-field and duplicate-email
validation, then creation of the user (email lowercased both by
`validate_email` and by `UserManager.create_user`), of the owned company,
of the verification code, and dispatch of the verification email. -/
def register (db : DB) (now : Nat) (choices : Fin 6 → Fin 10)
    (name email password1 : String) : RegisterResult :=
  if email.isEmpty then .error "This field may not be blank."
  else if password1.isEmpty then .error "This field may not be blank."
  else if name.isEmpty then .error "This field may not be blank."
  else
    let e := pyLower email
    if db.users.any (fun u => u.email == e) then
      .error "A user with this email already exists."
    else
      let uid := db.nextUserId
      let u : User :=
        { id := uid, email := pyLower e, name := name, password := password1,
          is_active := true, is_staff := false, is_email_verified := false,
          email_verification_code := none, email_verification_code_created_at := none,
          is_onboarded := false }
      let (code, u2) := u.generate_verification_code choices now
      let company : Company :=
        { id := db.nextCompanyId, name := name ++ "\u0027s Company", logo := none,
          admin := uid, members := [uid] }
      let db2 : DB :=
        { users := db.users ++ [u2],
          companies := db.companies ++ [company],
          tokens := db.tokens,
          nextUserId := db.nextUserId + 1,
          nextCompanyId := db.nextCompanyId + 1 }
      .ok db2 uid
        [{ «to» := u.email, subject := "Verify your email address",
           template_name := "auth/verify_email", context_verification_code := some code }]

/-- `MyCompanyView.get` (companies/views.py): the company whose admin is the
requester, or 404. -/
def MyCompanyView.get (db : DB) (requesterId : Nat) : Response :=
  match db.companies.find? (fun c => c.admin == requesterId) with
  | none => detailResponse 404 "No company found for this user."
  | some _ =>
    { status := 200, detail := none, key := none, email_not_verified := none,
      email := none }

/-- `MyCompanyView.patch` (companies/views.py): partial update of the
requester-administered company; the serializer only writes `name` and
`logo`, never `admin` or `members`. -/
def MyCompanyView.patch (db : DB) (requesterId : Nat)
    (newName newLogo : Option String) : Response × DB :=
  match db.companies.find? (fun c => c.admin == requesterId) with
  | none => (detailResponse 404 "No company found for this user.", db)
  | some c =>
    let c2 : Company :=
      { c with
        name := newName.getD c.name
        logo := newLogo.or c.logo }
    ({ status := 200, detail := none, key := none, email_not_verified := none,
       email := none },
     { db with companies := db.companies.map (fun d => if d.id == c.id then c2 else d) })

/-! ## The public operations as one step relation

Used to state the reachability invariant of claim C10: every endpoint of the
application, acting on the database state. Response bodies and outgoing
mail are discarded here; only the state transition matters. -/

/-- One invocation of a public endpoint, with all request data and all
environment inputs (clock, random draws, framework token functions) packed
into the operation. -/
inductive Op where
  | opRegister (name email password1 : String) (choices : Fin 6 → Fin 10) (now : Nat)
  | opLogin (email password freshKey : String)
  | opVerifyEmail (email code freshKey : String) (now : Nat)
  | opResend (email : String) (choices : Fin 6 → Fin 10) (now : Nat)
  | opPasswordReset (email : String)
  | opPasswordResetConfirm (decodeUid : String → Option Nat)
      (checkToken : User → String → Bool) (uid token new_password : String)
  | opCompanyGet (requesterId : Nat)
  | opCompanyPatch (requesterId : Nat) (newName newLogo : Option String)

/-- The database after one endpoint invocation. -/
def step (op : Op) (db : DB) : DB :=
  match op with
  | .opRegister name email password1 choices now =>
    match register db now choices name email password1 with
    | .error _ => db
    | .ok db2 _ _ => db2
  | .opLogin email password freshKey => (LoginView.post db email password freshKey).2
  | .opVerifyEmail email code freshKey now =>
    (VerifyEmailView.post db now freshKey email code).2
  | .opResend email choices now => (ResendVerificationView.post db now choices email).2.1
  | .opPasswordReset email => (PasswordResetView.post db email).2.1
  | .opPasswordResetConfirm decodeUid checkToken uid token new_password =>
    (PasswordResetConfirmView.post decodeUid checkToken db uid token new_password).2
  | .opCompanyGet _ => db
  | .opCompanyPatch requesterId newName newLogo =>
    (MyCompanyView.patch db requesterId newName newLogo).2

/-- The state of a freshly migrated database: empty tables, counters at 1
(Django primary keys start at 1). -/
def emptyDB : DB :=
  { users := [], companies := [], tokens := [], nextUserId := 1, nextCompanyId := 1 }

/-- States reachable from the initial empty state through the public
operations. -/
inductive Reachable : DB → Prop where
  | init : Reachable emptyDB
  | next : ∀ (op : Op) (db : DB), Reachable db → Reachable (step op db)

/-- Each user administers at most one company: the admins of distinct
company rows are pairwise distinct. -/
def adminAtMostOne (db : DB) : Prop :=
  List.Pairwise (fun c1 c2 => c1.admin ≠ c2.admin) db.companies

/-- The inductive well-formedness invariant carried through the step proof:
pairwise-distinct company admins and company ids, both bounded by the
auto-increment counters. -/
def DBInv (db : DB) : Prop :=
  List.Pairwise (fun c1 c2 => c1.admin ≠ c2.admin) db.companies ∧
  List.Pairwise (fun c1 c2 => c1.id ≠ c2.id) db.companies ∧
  (∀ c ∈ db.companies, c.admin < db.nextUserId) ∧
  (∀ c ∈ db.companies, c.id < db.nextCompanyId)

/-! ## Concrete sample data for witnesses -/

/-- A deterministic stand-in for the random draws. -/
def choices0 : Fin 6 → Fin 10 := fun _ => 0

/-- A verified sample user. -/
def uVerified : User :=
  { id := 1, email := "v@x.com", name := "V", password := "pw", is_active := true,
    is_staff := false, is_email_verified := true, email_verification_code := none,
    email_verification_code_created_at := none, is_onboarded := false }

/-- An unverified sample user holding a code issued at time 0. -/
def uUnverified : User :=
  { id := 2, email := "u@x.com", name := "U", password := "pw", is_active := true,
    is_staff := false, is_email_verified := false,
    email_verification_code := some "123456",
    email_verification_code_created_at := some 0, is_onboarded := false }

/-- A sample database holding both users and no companies or tokens. -/
def dbSample : DB :=
  { users := [uVerified, uUnverified], companies := [], tokens := [],
    nextUserId := 3, nextCompanyId := 1 }

/-! ## General lemmas about the model -/

theorem toNat_ofNat_valid (n : Nat) (h : n.isValidChar) : (Char.ofNat n).toNat = n := by
  simp [Char.ofNat, h, Char.ofNatAux, Char.toNat, UInt32.toNat, BitVec.toNat_ofNatLt]

theorem pyLowerChar_idem (c : Char) : pyLowerChar (pyLowerChar c) = pyLowerChar c := by
  unfold pyLowerChar
  split
  · rename_i h
    have hv : (c.toNat + 32).isValidChar := by
      left
      omega
    rw [toNat_ofNat_valid _ hv]
    simp
    omega
  · rfl

theorem pyLower_idem (s : String) : pyLower (pyLower s) = pyLower s := by
  simp [pyLower, List.map_map, Function.comp_def, pyLowerChar_idem]


theorem is_verification_code_valid_iff (u : User) (now : Nat) (code : String) :
    u.is_verification_code_valid now code = true ↔
      ∃ t, u.email_verification_code = some code ∧ code ≠ "" ∧
        u.email_verification_code_created_at = some t ∧
        now ≤ t + VERIFICATION_CODE_EXPIRY_MINUTES * 60 := by
  unfold User.is_verification_code_valid
  rcases hc : u.email_verification_code with _ | c <;>
    rcases ht : u.email_verification_code_created_at with _ | t
  · simp
  · simp
  · simp
  · by_cases hce : c = ""
    · subst hce
      simp [show ("" : String).isEmpty = true from rfl]
      intro h hne
      exact absurd h.symm hne
    · by_cases heq : c = code
      · subst heq
        simp [String.isEmpty_iff, hce]
      · simp [String.isEmpty_iff, hce, heq]

/-! ## Claim theorems -/

/-- Claim C1: for every user and submitted code string,
`is_verification_code_valid` returns false when no code or no issuance
timestamp is stored (a stored empty string is falsy in Python, hence counts
as no stored code), when the stored code differs from the submitted one, or
when more than 15 minutes have elapsed since issuance; it returns true when
a stored (non-empty) code equals the submitted code and at most 15 minutes
have elapsed. -/
theorem c1_is_verification_code_valid (u : User) (now : Nat) (code : String) :
    ((u.email_verification_code = none ∨ u.email_verification_code = some "" ∨
        u.email_verification_code_created_at = none) →
      u.is_verification_code_valid now code = false)
    ∧ (∀ c, u.email_verification_code = some c → c ≠ code →
        u.is_verification_code_valid now code = false)
    ∧ (∀ t, u.email_verification_code_created_at = some t →
        now > t + VERIFICATION_CODE_EXPIRY_MINUTES * 60 →
        u.is_verification_code_valid now code = false)
    ∧ (∀ t, u.email_verification_code = some code → code ≠ "" →
        u.email_verification_code_created_at = some t →
        now ≤ t + VERIFICATION_CODE_EXPIRY_MINUTES * 60 →
        u.is_verification_code_valid now code = true) := by
  refine ⟨?_, ?_, ?_, ?_⟩
  · intro h
    rw [← Bool.not_eq_true, is_verification_code_valid_iff]
    rintro ⟨t, hc, hne, ht, _⟩
    rcases h with h | h | h
    · rw [h] at hc
      exact Option.noConfusion hc
    · rw [h] at hc
      exact hne (Option.some.inj hc).symm
    · rw [h] at ht
      exact Option.noConfusion ht
  · intro c hc hne
    rw [← Bool.not_eq_true, is_verification_code_valid_iff]
    rintro ⟨t, hc2, _, _, _⟩
    rw [hc] at hc2
    exact hne (Option.some.inj hc2)
  · intro t ht hlate
    rw [← Bool.not_eq_true, is_verification_code_valid_iff]
    rintro ⟨t2, _, _, ht2, hle⟩
    rw [ht] at ht2
    have ht3 : t = t2 := Option.some.inj ht2
    omega
  · intro t hc hne ht hle
    rw [is_verification_code_valid_iff]
    exact ⟨t, hc, hne, ht, hle⟩

/-- Witness for C1: a user holding code 123456 issued at time 0 validates
that code at time 60 seconds. -/
theorem c1_is_verification_code_valid_witness :
    (User.is_verification_code_valid
      ⟨1, "t@x.com", "T", "pw", true, false, false, some "123456", some 0, false⟩
      60 "123456") = true :=
  (c1_is_verification_code_valid
      ⟨1, "t@x.com", "T", "pw", true, false, false, some "123456", some 0, false⟩
      60 "123456").2.2.2 0 rfl (by decide) rfl (by decide)

/-- Claim C6: after `verify_email`, the verified flag is set, the stored
code and timestamp are cleared, and no code validates any more. -/
theorem c6_verify_email_clears (u : User) (now : Nat) (c : String)
    (hvalid : u.is_verification_code_valid now c = true) :
    u.verify_email.is_email_verified = true ∧
    u.verify_email.email_verification_code = none ∧
    u.verify_email.email_verification_code_created_at = none ∧
    (∀ (now2 : Nat) (c2 : String),
      u.verify_email.is_verification_code_valid now2 c2 = false) := by
  refine ⟨rfl, rfl, rfl, ?_⟩
  intro now2 c2
  rfl

/-- Witness for C6: a concrete user with a currently valid code; after
verification the same code no longer validates. -/
theorem c6_verify_email_clears_witness :
    (User.verify_email
      ⟨1, "t@x.com", "T", "pw", true, false, false, some "123456", some 0, false⟩).is_verification_code_valid 60 "123456" = false :=
  (c6_verify_email_clears
      ⟨1, "t@x.com", "T", "pw", true, false, false, some "123456", some 0, false⟩
      60 "123456" (by decide)).2.2.2 60 "123456"

/-- Claim C9: `generate_verification_code` returns a string of exactly 6
decimal digits, stores that string as the verification code of the user,
and stores the current time as its issuance timestamp. -/
theorem c9_generate_verification_code (u : User) (choices : Fin 6 → Fin 10) (now : Nat) :
    (u.generate_verification_code choices now).1.length = 6 ∧
    ((u.generate_verification_code choices now).1.data.all Char.isDigit) = true ∧
    (u.generate_verification_code choices now).2.email_verification_code =
      some (u.generate_verification_code choices now).1 ∧
    (u.generate_verification_code choices now).2.email_verification_code_created_at =
      some now := by
  have hd : ∀ d : Fin 10, (digitChar d).isDigit = true := by decide
  refine ⟨?_, ?_, rfl, rfl⟩
  · simp [User.generate_verification_code, codeFromChoices, String.length]
  · simp only [User.generate_verification_code, codeFromChoices, List.all_eq_true]
    intro c hc
    simp only [String.mk, List.mem_map] at hc
    obtain ⟨i, _, hi⟩ := hc
    rw [← hi]
    exact hd _

/-- Claim C3: login answers 400 on invalid credentials, 403 with
`email_not_verified = true`, the user email and a detail message when the
credentials are valid but the email is unverified, and 200 with a token key
when the credentials are valid and the email is verified. -/
theorem c3_login (db : DB) (email password freshKey : String) :
    (authenticate db email password = none →
      (LoginView.post db email password freshKey).1.status = 400)
    ∧ (∀ u, authenticate db email password = some u → u.is_email_verified = false →
        (LoginView.post db email password freshKey).1.status = 403 ∧
        (LoginView.post db email password freshKey).1.email_not_verified = some true ∧
        (LoginView.post db email password freshKey).1.email = some u.email ∧
        (LoginView.post db email password freshKey).1.detail.isSome = true)
    ∧ (∀ u, authenticate db email password = some u → u.is_email_verified = true →
        (LoginView.post db email password freshKey).1.status = 200 ∧
        ∃ k, (LoginView.post db email password freshKey).1.key = some k) := by
  refine ⟨?_, ?_, ?_⟩
  · intro h
    simp [LoginView.post, h]
  · intro u hu hv
    simp [LoginView.post, hu, hv]
  · intro u hu hv
    rcases hg : db.getOrCreateToken u.id freshKey with ⟨tok, db2⟩
    simp [LoginView.post, hu, hv, hg]

/-- Witness for C3: in the sample database, correct credentials of the
unverified user get 403 with the machine-readable flag. -/
theorem c3_login_witness :
    (LoginView.post dbSample "u@x.com" "pw" "k1").1.status = 403 ∧
    (LoginView.post dbSample "u@x.com" "pw" "k1").1.email_not_verified = some true ∧
    (LoginView.post dbSample "u@x.com" "pw" "k1").1.email = some "u@x.com" ∧
    (LoginView.post dbSample "u@x.com" "pw" "k1").1.detail.isSome = true :=
  (c3_login dbSample "u@x.com" "pw" "k1").2.1 uUnverified (by decide) (by decide)

/-- Claim C2: the verify-email endpoint, on a well-formed body (the
serializer guarantees a 6-character code), answers 400 with a detail
message and leaves the state unchanged when the email matches no user, the
user is already verified, or the code does not validate; otherwise it marks
the user verified and answers 200 with a detail message and the key of the
auth token issued for auto-login (fresh whenever the user, being
unverified, holds no token yet). -/
theorem c2_verify_email (db : DB) (now : Nat) (freshKey email code : String)
    (hcode : code.length = 6) :
    (db.findUserByEmail (pyLower email) = none →
      (VerifyEmailView.post db now freshKey email code).1.status = 400 ∧
      (VerifyEmailView.post db now freshKey email code).1.detail.isSome = true ∧
      (VerifyEmailView.post db now freshKey email code).2 = db)
    ∧ (∀ u, db.findUserByEmail (pyLower email) = some u → u.is_email_verified = true →
        (VerifyEmailView.post db now freshKey email code).1.status = 400 ∧
        (VerifyEmailView.post db now freshKey email code).1.detail.isSome = true ∧
        (VerifyEmailView.post db now freshKey email code).2 = db)
    ∧ (∀ u, db.findUserByEmail (pyLower email) = some u → u.is_email_verified = false →
        u.is_verification_code_valid now code = false →
        (VerifyEmailView.post db now freshKey email code).1.status = 400 ∧
        (VerifyEmailView.post db now freshKey email code).1.detail.isSome = true ∧
        (VerifyEmailView.post db now freshKey email code).2 = db)
    ∧ (∀ u, db.findUserByEmail (pyLower email) = some u → u.is_email_verified = false →
        u.is_verification_code_valid now code = true →
        db.findToken u.id = none →
        (VerifyEmailView.post db now freshKey email code).1.status = 200 ∧
        (VerifyEmailView.post db now freshKey email code).1.detail.isSome = true ∧
        (VerifyEmailView.post db now freshKey email code).1.key = some freshKey ∧
        (VerifyEmailView.post db now freshKey email code).2 =
          { db.updateUser u.verify_email with
            tokens := db.tokens ++ [{ user_id := u.id, key := freshKey }] }) := by
  refine ⟨?_, ?_, ?_, ?_⟩
  · intro h
    simp [VerifyEmailView.post, detailResponse, hcode, h]
  · intro u hu hv
    simp [VerifyEmailView.post, detailResponse, hcode, hu, hv]
  · intro u hu hv hc
    simp [VerifyEmailView.post, detailResponse, hcode, hu, hv, hc]
  · intro u hu hv hc htok
    have hft : ∀ (v : User), (db.updateUser v).findToken u.id = db.findToken u.id :=
      fun _ => rfl
    have hta : ∀ (v : User), (db.updateUser v).tokens = db.tokens := fun _ => rfl
    simp [VerifyEmailView.post, detailResponse, hcode, hu, hv, hc, DB.getOrCreateToken,
      hft, hta, htok]

/-- Witness for C2: verifying the unverified sample user with the valid code
succeeds, returns the fresh token key, and marks the user verified. -/
theorem c2_verify_email_witness :
    (VerifyEmailView.post dbSample 60 "k1" "U@x.com" "123456").1.status = 200 ∧
    (VerifyEmailView.post dbSample 60 "k1" "U@x.com" "123456").1.detail.isSome = true ∧
    (VerifyEmailView.post dbSample 60 "k1" "U@x.com" "123456").1.key = some "k1" ∧
    (VerifyEmailView.post dbSample 60 "k1" "U@x.com" "123456").2 =
      { dbSample.updateUser uUnverified.verify_email with
        tokens := dbSample.tokens ++ [{ user_id := uUnverified.id, key := "k1" }] } :=
  (c2_verify_email dbSample 60 "k1" "U@x.com" "123456" (by decide)).2.2.2
    uUnverified (by decide) (by decide) (by decide) (by decide)

/-- Claim C7: password-reset-confirm rejects passwords shorter than 8
characters with 400, answers 400 leaving the database (hence the password)
unchanged when the uid does not decode to an existing user or the token
check fails, and otherwise stores the new password and answers 200. -/
theorem c7_password_reset_confirm (decodeUid : String → Option Nat)
    (checkToken : User → String → Bool) (db : DB) (uid token new_password : String) :
    (new_password.length < 8 →
      (PasswordResetConfirmView.post decodeUid checkToken db uid token new_password).1.status = 400 ∧
      (PasswordResetConfirmView.post decodeUid checkToken db uid token new_password).2 = db)
    ∧ (8 ≤ new_password.length → decodeUid uid = none →
        (PasswordResetConfirmView.post decodeUid checkToken db uid token new_password).1.status = 400 ∧
        (PasswordResetConfirmView.post decodeUid checkToken db uid token new_password).2 = db)
    ∧ (8 ≤ new_password.length → ∀ i, decodeUid uid = some i → db.findUserById i = none →
        (PasswordResetConfirmView.post decodeUid checkToken db uid token new_password).1.status = 400 ∧
        (PasswordResetConfirmView.post decodeUid checkToken db uid token new_password).2 = db)
    ∧ (8 ≤ new_password.length → ∀ i u, decodeUid uid = some i →
        db.findUserById i = some u → checkToken u token = false →
        (PasswordResetConfirmView.post decodeUid checkToken db uid token new_password).1.status = 400 ∧
        (PasswordResetConfirmView.post decodeUid checkToken db uid token new_password).2 = db)
    ∧ (8 ≤ new_password.length → ∀ i u, decodeUid uid = some i →
        db.findUserById i = some u → checkToken u token = true →
        (PasswordResetConfirmView.post decodeUid checkToken db uid token new_password).1.status = 200 ∧
        (PasswordResetConfirmView.post decodeUid checkToken db uid token new_password).2 =
          db.updateUser { u with password := new_password }) := by
  refine ⟨?_, ?_, ?_, ?_, ?_⟩
  · intro h
    simp [PasswordResetConfirmView.post, detailResponse, h]
  · intro h hd
    simp [PasswordResetConfirmView.post, detailResponse, Nat.not_lt.mpr h, hd]
  · intro h i hd hu
    simp [PasswordResetConfirmView.post, detailResponse, Nat.not_lt.mpr h, hd, hu]
  · intro h i u hd hu hck
    simp [PasswordResetConfirmView.post, detailResponse, Nat.not_lt.mpr h, hd, hu, hck]
  · intro h i u hd hu hck
    simp [PasswordResetConfirmView.post, detailResponse, Nat.not_lt.mpr h, hd, hu, hck]

/-- Witness for C7: with a decoder sending "MQ" to user id 2 and an
always-accepting token check, the password of the unverified sample user is
reset and the endpoint answers 200. -/
theorem c7_password_reset_confirm_witness :
    (PasswordResetConfirmView.post (fun s => if s = "Mg" then some 2 else none)
      (fun _ _ => true) dbSample "Mg" "tok" "newpass123").1.status = 200 ∧
    (PasswordResetConfirmView.post (fun s => if s = "Mg" then some 2 else none)
      (fun _ _ => true) dbSample "Mg" "tok" "newpass123").2 =
      dbSample.updateUser { uUnverified with password := "newpass123" } :=
  (c7_password_reset_confirm (fun s => if s = "Mg" then some 2 else none)
    (fun _ _ => true) dbSample "Mg" "tok" "newpass123").2.2.2.2
    (by decide) 2 uUnverified (by decide) (by decide) rfl

/-- Claim C8: resend-verification answers 200 without sending or storing
anything when no user carries the email; answers 400 (sending and storing
nothing) when the user is already verified; and otherwise stores a fresh
code on the user, dispatches exactly one verification email, and answers
200. -/
theorem c8_resend_verification (db : DB) (now : Nat) (choices : Fin 6 → Fin 10)
    (email : String) :
    (db.findUserByEmail (pyLower email) = none →
      (ResendVerificationView.post db now choices email).1.status = 200 ∧
      (ResendVerificationView.post db now choices email).1.detail.isSome = true ∧
      (ResendVerificationView.post db now choices email).2.1 = db ∧
      (ResendVerificationView.post db now choices email).2.2 = [])
    ∧ (∀ u, db.findUserByEmail (pyLower email) = some u → u.is_email_verified = true →
        (ResendVerificationView.post db now choices email).1.status = 400 ∧
        (ResendVerificationView.post db now choices email).2.1 = db ∧
        (ResendVerificationView.post db now choices email).2.2 = [])
    ∧ (∀ u, db.findUserByEmail (pyLower email) = some u → u.is_email_verified = false →
        (ResendVerificationView.post db now choices email).1.status = 200 ∧
        (ResendVerificationView.post db now choices email).2.1 =
          db.updateUser (u.generate_verification_code choices now).2 ∧
        (u.generate_verification_code choices now).2.email_verification_code =
          some (codeFromChoices choices) ∧
        (ResendVerificationView.post db now choices email).2.2 =
          [{ «to» := u.email, subject := "Verify your email address",
             template_name := "auth/verify_email",
             context_verification_code := some (codeFromChoices choices) }]) := by
  refine ⟨?_, ?_, ?_⟩
  · intro h
    simp [ResendVerificationView.post, detailResponse, h]
  · intro u hu hv
    simp [ResendVerificationView.post, detailResponse, hu, hv]
  · intro u hu hv
    simp [ResendVerificationView.post, detailResponse, hu, hv,
      User.generate_verification_code]

/-- Witness for C8: resending to the unverified sample user stores the fresh
code 000000 and dispatches exactly one verification email. -/
theorem c8_resend_verification_witness :
    (ResendVerificationView.post dbSample 5 choices0 "u@x.com").1.status = 200 ∧
    (ResendVerificationView.post dbSample 5 choices0 "u@x.com").2.1 =
      dbSample.updateUser (uUnverified.generate_verification_code choices0 5).2 ∧
    (uUnverified.generate_verification_code choices0 5).2.email_verification_code =
      some (codeFromChoices choices0) ∧
    (ResendVerificationView.post dbSample 5 choices0 "u@x.com").2.2 =
      [{ «to» := "u@x.com", subject := "Verify your email address",
         template_name := "auth/verify_email",
         context_verification_code := some (codeFromChoices choices0) }] :=
  (c8_resend_verification dbSample 5 choices0 "u@x.com").2.2
    uUnverified (by decide) (by decide)

/-- Counterexample to C4 as stated: the resend-verification endpoint does
not return 200 independently of user existence — for the email of an
existing, already-verified user it returns 400, a response that does reveal
that the account exists. -/
theorem c4_counterexample :
    (ResendVerificationView.post dbSample 0 choices0 "v@x.com").1.status ≠ 200 := by
  decide

/-- Claim C4 (amended): the password-reset-request endpoint always answers
200, never mutates the state, and dispatches an email exactly when the user
exists; the resend-verification endpoint answers 200 both for a
non-existing email (mutating nothing and sending nothing) and for an
existing unverified user (then sending exactly one email), but answers 400
for an existing already-verified user, sending nothing and mutating
nothing. -/
theorem c4_anti_enumeration (db : DB) (now : Nat) (choices : Fin 6 → Fin 10)
    (email : String) :
    ((PasswordResetView.post db email).1.status = 200 ∧
      (PasswordResetView.post db email).2.1 = db ∧
      (db.findUserByEmail (pyLower email) = none →
        (PasswordResetView.post db email).2.2 = []) ∧
      (∀ u, db.findUserByEmail (pyLower email) = some u →
        (PasswordResetView.post db email).2.2.length = 1))
    ∧ (db.findUserByEmail (pyLower email) = none →
        (ResendVerificationView.post db now choices email).1.status = 200 ∧
        (ResendVerificationView.post db now choices email).2.1 = db ∧
        (ResendVerificationView.post db now choices email).2.2 = [])
    ∧ (∀ u, db.findUserByEmail (pyLower email) = some u → u.is_email_verified = false →
        (ResendVerificationView.post db now choices email).1.status = 200 ∧
        (ResendVerificationView.post db now choices email).2.2.length = 1)
    ∧ (∀ u, db.findUserByEmail (pyLower email) = some u → u.is_email_verified = true →
        (ResendVerificationView.post db now choices email).1.status = 400 ∧
        (ResendVerificationView.post db now choices email).2.1 = db ∧
        (ResendVerificationView.post db now choices email).2.2 = []) := by
  refine ⟨?_, ?_, ?_, ?_⟩
  · rcases h : db.findUserByEmail (pyLower email) with _ | u
    · simp [PasswordResetView.post, detailResponse, h]
    · simp [PasswordResetView.post, detailResponse, h]
  · intro h
    simp [ResendVerificationView.post, detailResponse, h]
  · intro u hu hv
    simp [ResendVerificationView.post, detailResponse, hu, hv]
  · intro u hu hv
    simp [ResendVerificationView.post, detailResponse, hu, hv]

/-- Witness for C4 (amended): a password reset request for a non-existing
email still answers 200 and sends nothing. -/
theorem c4_anti_enumeration_witness :
    (PasswordResetView.post dbSample "ghost@x.com").1.status = 200 ∧
    (PasswordResetView.post dbSample "ghost@x.com").2.1 = dbSample ∧
    (PasswordResetView.post dbSample "ghost@x.com").2.2 = [] :=
  ⟨(c4_anti_enumeration dbSample 0 choices0 "ghost@x.com").1.1,
   (c4_anti_enumeration dbSample 0 choices0 "ghost@x.com").1.2.1,
   (c4_anti_enumeration dbSample 0 choices0 "ghost@x.com").1.2.2.1 (by decide)⟩

/-- Claim C5: registering name n, email e and a non-empty password is
rejected with a validation error when a user whose email equals e
case-insensitively already exists (stored emails being lowercase, the check
compares against lowercased e); otherwise it creates a user storing the
lowercase form of e, creates a company named after n with that user as
admin and member, and dispatches exactly one verification email to the
lowercased address with template auth/verify_email. -/
theorem c5_register (db : DB) (now : Nat) (choices : Fin 6 → Fin 10)
    (name email password1 : String)
    (hp : password1 ≠ "") (hn : name ≠ "") (he : email ≠ "")
    (hnorm : ∀ u ∈ db.users, pyLower u.email = u.email) :
    ((∃ u ∈ db.users, pyLower u.email = pyLower email) →
      register db now choices name email password1 =
        .error "A user with this email already exists.")
    ∧ ((∀ u ∈ db.users, pyLower u.email ≠ pyLower email) →
        ∃ db2 uid sent,
          register db now choices name email password1 = .ok db2 uid sent ∧
          (∃ u2 ∈ db2.users, u2.id = uid ∧ u2.email = pyLower email ∧ u2.name = name) ∧
          (∃ c ∈ db2.companies, c.name = name ++ "'s Company" ∧ c.admin = uid ∧
            uid ∈ c.members) ∧
          sent.length = 1 ∧
          (∀ m ∈ sent, m.«to» = pyLower email ∧ m.template_name = "auth/verify_email")) := by
  have hei : email.isEmpty = false := by
    rw [← Bool.not_eq_true, String.isEmpty_iff]
    exact he
  have hpi : password1.isEmpty = false := by
    rw [← Bool.not_eq_true, String.isEmpty_iff]
    exact hp
  have hni : name.isEmpty = false := by
    rw [← Bool.not_eq_true, String.isEmpty_iff]
    exact hn
  constructor
  · rintro ⟨u, humem, hlow⟩
    have hue : u.email = pyLower email := by
      rw [← hnorm u humem]
      exact hlow
    have hany : db.users.any (fun u => u.email == pyLower email) = true := by
      rw [List.any_eq_true]
      exact ⟨u, humem, by simp [hue]⟩
    simp [register, hei, hpi, hni, hany]
  · intro h
    have hany : db.users.any (fun u => u.email == pyLower email) = false := by
      rw [List.any_eq_false]
      intro u humem
      simp only [beq_iff_eq]
      rw [← hnorm u humem]
      exact h u humem
    rcases hreg : register db now choices name email password1 with msg | ⟨db2, uid, sent⟩
    · exfalso
      simp [register, hei, hpi, hni, hany] at hreg
    · refine ⟨db2, uid, sent, rfl, ?_⟩
      simp only [register, hei, hpi, hni, hany, Bool.false_eq_true, if_false,
        User.generate_verification_code, RegisterResult.ok.injEq] at hreg
      rcases hreg with ⟨hdb2, huid, hsent⟩
      subst hdb2
      subst huid
      subst hsent
      refine ⟨?_, ?_, rfl, ?_⟩
      · exact ⟨_, List.mem_append_right _ (List.mem_singleton.mpr rfl), rfl,
          pyLower_idem email, rfl⟩
      · exact ⟨_, List.mem_append_right _ (List.mem_singleton.mpr rfl), rfl, rfl,
          List.mem_singleton.mpr rfl⟩
      · intro m hm
        rw [List.mem_singleton] at hm
        subst hm
        exact ⟨pyLower_idem email, rfl⟩

/-- Witness for C5: the spec example — registering John Doe with email
JOHN@x.com in the sample database succeeds, storing john@x.com, creating
the owned company, and sending one verification email to john@x.com. -/
theorem c5_register_witness :
    ∃ db2 uid sent,
      register dbSample 0 choices0 "John Doe" "JOHN@x.com" "securepass123" =
        .ok db2 uid sent ∧
      (∃ u2 ∈ db2.users, u2.id = uid ∧ u2.email = pyLower "JOHN@x.com" ∧
        u2.name = "John Doe") ∧
      (∃ c ∈ db2.companies, c.name = "John Doe" ++ "'s Company" ∧ c.admin = uid ∧
        uid ∈ c.members) ∧
      sent.length = 1 ∧
      (∀ m ∈ sent, m.«to» = pyLower "JOHN@x.com" ∧
        m.template_name = "auth/verify_email") :=
  (c5_register dbSample 0 choices0 "John Doe" "JOHN@x.com" "securepass123"
    (by decide) (by decide) (by decide) (by decide)).2 (by decide)

/-! ## State-preservation lemmas for the reachability invariant -/

theorem getOrCreateToken_state (db : DB) (uid : Nat) (k : String) :
    (db.getOrCreateToken uid k).2.companies = db.companies ∧
    (db.getOrCreateToken uid k).2.nextUserId = db.nextUserId ∧
    (db.getOrCreateToken uid k).2.nextCompanyId = db.nextCompanyId := by
  unfold DB.getOrCreateToken
  rcases db.findToken uid with _ | t
  · exact ⟨rfl, rfl, rfl⟩
  · exact ⟨rfl, rfl, rfl⟩

theorem login_post_state (db : DB) (e p k : String) :
    (LoginView.post db e p k).2.companies = db.companies ∧
    (LoginView.post db e p k).2.nextUserId = db.nextUserId ∧
    (LoginView.post db e p k).2.nextCompanyId = db.nextCompanyId := by
  rcases ha : authenticate db e p with _ | u
  · simp [LoginView.post, ha]
  · cases hv : u.is_email_verified
    · simp [LoginView.post, ha, hv]
    · rcases hg : db.getOrCreateToken u.id k with ⟨tok, db2⟩
      have hst := getOrCreateToken_state db u.id k
      rw [hg] at hst
      simp [LoginView.post, ha, hv, hg]
      exact ⟨hst.1, hst.2.1, hst.2.2⟩

theorem verify_email_post_state (db : DB) (now : Nat) (k e c : String) :
    (VerifyEmailView.post db now k e c).2.companies = db.companies ∧
    (VerifyEmailView.post db now k e c).2.nextUserId = db.nextUserId ∧
    (VerifyEmailView.post db now k e c).2.nextCompanyId = db.nextCompanyId := by
  by_cases hl : c.length = 6
  · rcases hf : db.findUserByEmail (pyLower e) with _ | u
    · simp [VerifyEmailView.post, hl, hf]
    · cases hv : u.is_email_verified
      · cases hc2 : u.is_verification_code_valid now c
        · simp [VerifyEmailView.post, hl, hf, hv, hc2]
        · rcases hg : (db.updateUser u.verify_email).getOrCreateToken u.id k with ⟨tok, db3⟩
          have hst := getOrCreateToken_state (db.updateUser u.verify_email) u.id k
          rw [hg] at hst
          simp [VerifyEmailView.post, hl, hf, hv, hc2, hg]
          exact ⟨hst.1, hst.2.1, hst.2.2⟩
      · simp [VerifyEmailView.post, hl, hf, hv]
  · simp [VerifyEmailView.post, hl]

theorem resend_post_state (db : DB) (now : Nat) (choices : Fin 6 → Fin 10) (e : String) :
    (ResendVerificationView.post db now choices e).2.1.companies = db.companies ∧
    (ResendVerificationView.post db now choices e).2.1.nextUserId = db.nextUserId ∧
    (ResendVerificationView.post db now choices e).2.1.nextCompanyId = db.nextCompanyId := by
  rcases hf : db.findUserByEmail (pyLower e) with _ | u
  · simp [ResendVerificationView.post, hf]
  · cases hv : u.is_email_verified
    · simp [ResendVerificationView.post, hf, hv, DB.updateUser,
        User.generate_verification_code]
    · simp [ResendVerificationView.post, hf, hv]

theorem password_reset_post_state (db : DB) (e : String) :
    (PasswordResetView.post db e).2.1 = db := by
  rcases hf : db.findUserByEmail (pyLower e) with _ | u
  · simp [PasswordResetView.post, hf]
  · simp [PasswordResetView.post, hf]

theorem password_reset_confirm_post_state (decodeUid : String → Option Nat)
    (checkToken : User → String → Bool) (db : DB) (uid token np : String) :
    (PasswordResetConfirmView.post decodeUid checkToken db uid token np).2.companies =
      db.companies ∧
    (PasswordResetConfirmView.post decodeUid checkToken db uid token np).2.nextUserId =
      db.nextUserId ∧
    (PasswordResetConfirmView.post decodeUid checkToken db uid token np).2.nextCompanyId =
      db.nextCompanyId := by
  by_cases hl : np.length < 8
  · simp [PasswordResetConfirmView.post, hl]
  · rcases hd : decodeUid uid with _ | i
    · simp [PasswordResetConfirmView.post, hl, hd]
    · rcases hu : db.findUserById i with _ | u
      · simp [PasswordResetConfirmView.post, hl, hd, hu]
      · cases hck : checkToken u token
        · simp [PasswordResetConfirmView.post, hl, hd, hu, hck]
        · simp [PasswordResetConfirmView.post, hl, hd, hu, hck, DB.updateUser]

theorem DBInv_unchanged (db db2 : DB) (hc : db2.companies = db.companies)
    (hu : db2.nextUserId = db.nextUserId) (hcc : db2.nextCompanyId = db.nextCompanyId)
    (h : DBInv db) : DBInv db2 := by
  obtain ⟨h1, h2, h3, h4⟩ := h
  refine ⟨?_, ?_, ?_, ?_⟩
  · rw [hc]
    exact h1
  · rw [hc]
    exact h2
  · rw [hc, hu]
    exact h3
  · rw [hc, hcc]
    exact h4

theorem DBInv_map_preserving (db : DB) (f : Company → Company)
    (hadm : ∀ d ∈ db.companies, (f d).admin = d.admin)
    (hid : ∀ d ∈ db.companies, (f d).id = d.id)
    (h : DBInv db) :
    DBInv { db with companies := db.companies.map f } := by
  obtain ⟨h1, h2, h3, h4⟩ := h
  refine ⟨?_, ?_, ?_, ?_⟩
  · rw [List.pairwise_map]
    refine h1.imp_of_mem ?_
    intro a b ha hb hr
    rw [hadm a ha, hadm b hb]
    exact hr
  · rw [List.pairwise_map]
    refine h2.imp_of_mem ?_
    intro a b ha hb hr
    rw [hid a ha, hid b hb]
    exact hr
  · intro x hx
    rw [List.mem_map] at hx
    obtain ⟨d, hd, rfl⟩ := hx
    rw [hadm d hd]
    exact h3 d hd
  · intro x hx
    rw [List.mem_map] at hx
    obtain ⟨d, hd, rfl⟩ := hx
    rw [hid d hd]
    exact h4 d hd

theorem patch_pointwise (db : DB) (c c2 : Company)
    (h2 : List.Pairwise (fun a b => a.id ≠ b.id) db.companies)
    (hcmem : c ∈ db.companies) (hadm : c2.admin = c.admin) (hid : c2.id = c.id) :
    ∀ d ∈ db.companies,
      ((if d.id == c.id then c2 else d).admin = d.admin ∧
       (if d.id == c.id then c2 else d).id = d.id) := by
  have hsymm : Symmetric (fun a b : Company => a.id ≠ b.id) :=
    fun x y hxy hyx => hxy hyx.symm
  intro d hd
  by_cases hdc : d.id = c.id
  · have hde : d = c := by
      by_contra hne
      exact (h2.forall hsymm hd hcmem hne) hdc
    subst hde
    simp [hadm, hid]
  · simp [hdc]

theorem patch_DBInv (db : DB) (rid : Nat) (nn nl : Option String) (h : DBInv db) :
    DBInv (MyCompanyView.patch db rid nn nl).2 := by
  rcases hf : db.companies.find? (fun c => c.admin == rid) with _ | c
  · have hstep : (MyCompanyView.patch db rid nn nl).2 = db := by
      simp [MyCompanyView.patch, hf]
    rw [hstep]
    exact h
  · have hcmem : c ∈ db.companies := List.mem_of_find?_eq_some hf
    have hstep : (MyCompanyView.patch db rid nn nl).2 =
        { db with
          companies := db.companies.map (fun d =>
            if d.id == c.id then
              { c with name := nn.getD c.name, logo := nl.or c.logo }
            else d) } := by
      simp [MyCompanyView.patch, hf]
    rw [hstep]
    refine DBInv_map_preserving db _ ?_ ?_ h
    · intro d hd
      exact (patch_pointwise db c
        { c with name := nn.getD c.name, logo := nl.or c.logo }
        h.2.1 hcmem rfl rfl d hd).1
    · intro d hd
      exact (patch_pointwise db c
        { c with name := nn.getD c.name, logo := nl.or c.logo }
        h.2.1 hcmem rfl rfl d hd).2

theorem register_ok_shape (db : DB) (now : Nat) (choices : Fin 6 → Fin 10)
    (name email password1 : String) (db2 : DB) (uid : Nat) (sent : List EmailMessage)
    (hreg : register db now choices name email password1 = .ok db2 uid sent) :
    db2.companies = db.companies ++
      [{ id := db.nextCompanyId, name := name ++ "'s Company", logo := none,
         admin := db.nextUserId, members := [db.nextUserId] }] ∧
    db2.nextUserId = db.nextUserId + 1 ∧
    db2.nextCompanyId = db.nextCompanyId + 1 ∧
    uid = db.nextUserId := by
  simp only [register, User.generate_verification_code] at hreg
  split at hreg
  · exact RegisterResult.noConfusion hreg
  · split at hreg
    · exact RegisterResult.noConfusion hreg
    · split at hreg
      · exact RegisterResult.noConfusion hreg
      · split at hreg
        · exact RegisterResult.noConfusion hreg
        · simp only [RegisterResult.ok.injEq] at hreg
          rcases hreg with ⟨rfl, rfl, rfl⟩
          exact ⟨rfl, rfl, rfl, rfl⟩

theorem DBInv_step (op : Op) (db : DB) (h : DBInv db) : DBInv (step op db) := by
  cases op with
  | opRegister name email password1 choices now =>
    simp only [step]
    rcases hreg : register db now choices name email password1 with msg | ⟨db2, uid, sent⟩
    · exact h
    · obtain ⟨hc, hu, hcc, huid⟩ :=
        register_ok_shape db now choices name email password1 db2 uid sent hreg
      obtain ⟨h1, h2, h3, h4⟩ := h
      refine ⟨?_, ?_, ?_, ?_⟩
      · rw [hc, List.pairwise_append]
        refine ⟨h1, List.pairwise_singleton _ _, ?_⟩
        intro a ha b hb
        rw [List.mem_singleton] at hb
        subst hb
        exact Nat.ne_of_lt (h3 a ha)
      · rw [hc, List.pairwise_append]
        refine ⟨h2, List.pairwise_singleton _ _, ?_⟩
        intro a ha b hb
        rw [List.mem_singleton] at hb
        subst hb
        exact Nat.ne_of_lt (h4 a ha)
      · rw [hc, hu]
        intro x hx
        rcases List.mem_append.mp hx with hx | hx
        · exact Nat.lt_trans (h3 x hx) (Nat.lt_succ_self _)
        · rw [List.mem_singleton] at hx
          subst hx
          exact Nat.lt_succ_self _
      · rw [hc, hcc]
        intro x hx
        rcases List.mem_append.mp hx with hx | hx
        · exact Nat.lt_trans (h4 x hx) (Nat.lt_succ_self _)
        · rw [List.mem_singleton] at hx
          subst hx
          exact Nat.lt_succ_self _
  | opLogin e p k =>
    simp only [step]
    exact DBInv_unchanged db _ (login_post_state db e p k).1
      (login_post_state db e p k).2.1 (login_post_state db e p k).2.2 h
  | opVerifyEmail e c k now =>
    simp only [step]
    exact DBInv_unchanged db _ (verify_email_post_state db now k e c).1
      (verify_email_post_state db now k e c).2.1 (verify_email_post_state db now k e c).2.2 h
  | opResend e choices now =>
    simp only [step]
    exact DBInv_unchanged db _ (resend_post_state db now choices e).1
      (resend_post_state db now choices e).2.1 (resend_post_state db now choices e).2.2 h
  | opPasswordReset e =>
    simp only [step]
    rw [password_reset_post_state db e]
    exact h
  | opPasswordResetConfirm decodeUid checkToken uid token np =>
    simp only [step]
    exact DBInv_unchanged db _
      (password_reset_confirm_post_state decodeUid checkToken db uid token np).1
      (password_reset_confirm_post_state decodeUid checkToken db uid token np).2.1
      (password_reset_confirm_post_state decodeUid checkToken db uid token np).2.2 h
  | opCompanyGet rid =>
    exact h
  | opCompanyPatch rid nn nl =>
    simp only [step]
    exact patch_DBInv db rid nn nl h

theorem DBInv_reachable (db : DB) (h : Reachable db) : DBInv db := by
  induction h with
  | init =>
    refine ⟨List.Pairwise.nil, List.Pairwise.nil, ?_, ?_⟩
    · intro c hc
      cases hc
    · intro c hc
      cases hc
  | next op db hr ih =>
    exact DBInv_step op db ih

/-- Claim C10: in every state reachable from the initial empty state through
the public operations, each user is the admin of at most one company;
moreover no operation other than registration changes the list of company
admins (on well-formed states), and a successful registration appends
exactly one company whose admin is the newly created user. -/
theorem c10_admin_at_most_one :
    (∀ db, Reachable db → adminAtMostOne db)
    ∧ (∀ (op : Op) (db : DB), DBInv db →
        (∀ n e p ch t, op ≠ Op.opRegister n e p ch t) →
        (step op db).companies.map Company.admin = db.companies.map Company.admin)
    ∧ (∀ (db : DB) (now : Nat) (choices : Fin 6 → Fin 10) (n e p : String)
        (db2 : DB) (uid : Nat) (sent : List EmailMessage),
        register db now choices n e p = .ok db2 uid sent →
        db2.companies.map Company.admin =
          db.companies.map Company.admin ++ [uid]) := by
  refine ⟨?_, ?_, ?_⟩
  · intro db h
    exact (DBInv_reachable db h).1
  · intro op db hinv hne
    cases op with
    | opRegister n e p ch t => exact absurd rfl (hne n e p ch t)
    | opLogin e p k =>
      simp only [step]
      rw [(login_post_state db e p k).1]
    | opVerifyEmail e c k now =>
      simp only [step]
      rw [(verify_email_post_state db now k e c).1]
    | opResend e ch now =>
      simp only [step]
      rw [(resend_post_state db now ch e).1]
    | opPasswordReset e =>
      simp only [step]
      rw [password_reset_post_state db e]
    | opPasswordResetConfirm d ck uid tok np =>
      simp only [step]
      rw [(password_reset_confirm_post_state d ck db uid tok np).1]
    | opCompanyGet rid => rfl
    | opCompanyPatch rid nn nl =>
      simp only [step]
      rcases hf : db.companies.find? (fun c => c.admin == rid) with _ | c
      · have hstep : (MyCompanyView.patch db rid nn nl).2 = db := by
          simp [MyCompanyView.patch, hf]
        rw [hstep]
      · have hcmem : c ∈ db.companies := List.mem_of_find?_eq_some hf
        have hstep : (MyCompanyView.patch db rid nn nl).2 =
            { db with
              companies := db.companies.map (fun d =>
                if d.id == c.id then
                  { c with name := nn.getD c.name, logo := nl.or c.logo }
                else d) } := by
          simp [MyCompanyView.patch, hf]
        rw [hstep]
        simp only [List.map_map]
        refine List.map_congr_left ?_
        intro d hd
        have hpt := (patch_pointwise db c
          { c with name := nn.getD c.name, logo := nl.or c.logo }
          hinv.2.1 hcmem rfl rfl d hd).1
        simpa using hpt
  · intro db now choices n e p db2 uid sent hreg
    obtain ⟨hc, hu, hcc, huid⟩ := register_ok_shape db now choices n e p db2 uid sent hreg
    rw [hc, huid, List.map_append]
    rfl

/-- Witness for C10: the invariant holds in the concrete state reached by one
registration from the empty database, and a company-get request leaves the
admin list of the sample database unchanged. -/
theorem c10_admin_at_most_one_witness :
    adminAtMostOne
      (step (Op.opRegister "John Doe" "john@x.com" "securepass123" choices0 0) emptyDB) ∧
    (step (Op.opCompanyGet 1) dbSample).companies.map Company.admin =
      dbSample.companies.map Company.admin :=
  ⟨c10_admin_at_most_one.1 _ (Reachable.next _ _ Reachable.init),
   c10_admin_at_most_one.2.1 (Op.opCompanyGet 1) dbSample
     (by
       refine ⟨List.Pairwise.nil, List.Pairwise.nil, ?_, ?_⟩ <;>
         · intro c hc
           simp [dbSample] at hc)
     (fun n e p ch t h => Op.noConfusion h)⟩

end Worktree
